import Mathlib

/-!
Verification development for the Rendimo price-estimation pipeline.

The Python modules `api/price_api.py`, `api/price_api_simple.py` and
`api/price_api_dvf.py` are shallowly embedded below.  Python floats are
modelled as rationals (`ℚ`), Python dicts as structures, network calls as
oracle parameters supplying the value the code extracts from each response,
and raised exceptions as explicit constructors.
-/

namespace Py

/-- Python `int(q)` on a float: truncation toward zero. -/
def intTrunc (q : ℚ) : ℤ := if q < 0 then ⌈q⌉ else ⌊q⌋

/-- Python `round(q)` (banker's rounding: round half to even). -/
def pyround (q : ℚ) : ℤ :=
  if q - ⌊q⌋ < 1 / 2 then ⌊q⌋
  else if 1 / 2 < q - ⌊q⌋ then ⌊q⌋ + 1
  else if ⌊q⌋ % 2 = 0 then ⌊q⌋ else ⌊q⌋ + 1

/-- Python `round(q, n)`: round to `n` decimal digits, ties to even. -/
def roundTo (q : ℚ) (n : ℕ) : ℚ := (pyround (q * 10 ^ n) : ℚ) / 10 ^ n

/-- Python substring containment `sub in s` on strings: contiguous-substring
membership, decided on the character lists. -/
def strIn (sub s : String) : Bool := decide (sub.toList <:+: s.toList)

/-- Python `str.lower()` (ASCII case mapping, which covers the inputs used). -/
def lower (s : String) : String := String.mk (s.toList.map Char.toLower)

/-- Python `str.strip()`: drop whitespace from both ends. -/
def strip (s : String) : String :=
  String.mk (((s.toList.dropWhile Char.isWhitespace).reverse.dropWhile
    Char.isWhitespace).reverse)

/-- One step of Python `str.title()`: the boolean records whether the previous
character was alphabetic. -/
def titleAux : Bool → List Char → List Char
  | _, [] => []
  | prevAlpha, c :: cs =>
    let c' := if c.isAlpha && !prevAlpha then c.toUpper
              else if c.isAlpha && prevAlpha then c.toLower else c
    c' :: titleAux c.isAlpha cs

/-- Python `str.title()` (ASCII behaviour, which covers the city names used). -/
def title (s : String) : String := String.mk (titleAux false s.toList)

end Py

namespace PriceApi

/-! ### `PriceAPI._expand_insee_to_query` (api/price_api.py) -/

/-- Python `str(i).zfill(2)` for the arrondissement suffixes. -/
def zfill2 (n : ℕ) : String := if n < 10 then "0" ++ toString n else toString n

/-- `_expand_insee_to_query`: Paris 75056 → 75101..75120, Lyon 69123 →
69381..69389, Marseille 13055 → 13201..13216, otherwise `[insee_code]`.
`range(1, 21)` is modelled as `(List.range 20).map (· + 1)`, etc. -/
def _expand_insee_to_query (insee_code : String) : List String :=
  if insee_code = "75056" then (List.range 20).map (fun i => "751" ++ zfill2 (i + 1))
  else if insee_code = "69123" then (List.range 9).map (fun i => "6938" ++ toString (i + 1))
  else if insee_code = "13055" then (List.range 16).map (fun i => "132" ++ zfill2 (i + 1))
  else [insee_code]

/-! ### `PriceAPI._compute_stats` (api/price_api.py) -/

/-- The nested `percentile` helper of `_compute_stats`.  `int(k)` is
`Py.intTrunc`; list indexing is modelled with `getD` (all indices reached
under the claims' hypotheses `0 ≤ p ≤ 100` are in range, so Python's
negative-index semantics never arises). -/
def percentile (sorted_list : List ℚ) (p : ℚ) : ℚ :=
  if sorted_list.isEmpty then 0
  else
    let k : ℚ := ((sorted_list.length : ℚ) - 1) * (p / 100)
    let f : ℤ := Py.intTrunc k
    let c : ℤ := min (f + 1) ((sorted_list.length : ℤ) - 1)
    if f = c then sorted_list.getD (Py.intTrunc k).toNat 0
    else sorted_list.getD f.toNat 0 * ((c : ℚ) - k) + sorted_list.getD c.toNat 0 * (k - (f : ℚ))

/-- Python `statistics.median` on an (already sorted) list. -/
def pymedian (l : List ℚ) : ℚ :=
  let n := l.length
  if n % 2 = 1 then l.getD (n / 2) 0
  else (l.getD (n / 2 - 1) 0 + l.getD (n / 2) 0) / 2

/-- A DVF transaction dict as consumed by `_compute_stats`: keys `price`,
`surface`, and optional `type` and `date`. -/
structure Tx where
  price : ℚ
  surface : ℚ
  type : Option String := none
  date : Option String := none
deriving DecidableEq

/-- The tolerant type check `if t and t not in ('apartment', 'house',
'Appartement', 'Maison'): continue` — `None` and `""` are falsy and pass. -/
def txTypeOk : Option String → Bool
  | none => true
  | some t =>
    t = "" || t = "apartment" || t = "house" || t = "Appartement" || t = "Maison"

/-- A record survives `_compute_stats`' quality filter iff it escapes
`if price <= 1000 or surface < 8 or surface > 300: continue` and the type
check. -/
def txKeep (tx : Tx) : Bool :=
  if tx.price ≤ 1000 ∨ tx.surface < 8 ∨ tx.surface > 300 then false
  else txTypeOk tx.type

/-- `if d and (not last_date or d > last_date): last_date = d` (Python string
comparison is lexicographic, as is Lean's `String` order). -/
def dateUpd (acc : Option String) (d? : Option String) : Option String :=
  match d? with
  | none => acc
  | some d =>
    if d = "" then acc
    else
      match acc with
      | none => some d
      | some a => if a < d then some d else acc

/-- The running `last_date` over the surviving records. -/
def lastTxDate (txs : List Tx) : Option String :=
  txs.foldl (fun acc tx => dateUpd acc tx.date) none

/-- The dict returned by `_compute_stats` when at least one record survives. -/
structure Stats where
  median_m2 : ℤ
  p10_m2 : ℤ
  p90_m2 : ℤ
  count : ℕ
  period_months : Option ℕ := none
  last_tx_date : Option String := none
deriving DecidableEq

/-- `_compute_stats`: filter, compute price-per-m², sort, take
median/p10/p90 (each passed through Python `round`) and the count.
`none` models the empty dict `{}` returned when nothing survives.
`prices_m2.sort()` is modelled by `List.insertionSort (· ≤ ·)` (a sorted
permutation, which is all Python's Timsort guarantees on floats). -/
def _compute_stats (transactions : List Tx) : Option Stats :=
  let kept := transactions.filter txKeep
  let prices_m2 := kept.map (fun tx => tx.price / tx.surface)
  if prices_m2 = [] then none
  else
    let sorted := List.insertionSort (· ≤ ·) prices_m2
    some { median_m2 := Py.pyround (pymedian sorted)
           p10_m2 := Py.pyround (percentile sorted 10)
           p90_m2 := Py.pyround (percentile sorted 90)
           count := sorted.length
           period_months := none
           last_tx_date := lastTxDate kept }

/-! ### `PriceAPI._cache_get` / `_cache_set` (api/price_api.py)

The in-memory dict and the on-disk directory are modelled as partial maps
from keys to payloads `{'_ts': ..., 'data': ...}`; `time.time()` values are
rationals.  `_safe_key` only renames the disk file, so the disk map is keyed
by the original key.  The memory repopulation performed on a disk hit does
not affect the value returned, and is not modelled. -/

/-- A cache payload `{'_ts': ts, 'data': data}`. -/
structure CachePayload (α : Type) where
  ts : ℚ
  data : α
deriving DecidableEq

/-- `_cache_get`: memory first (hit iff `now - ts < 24*3600`), then disk with
the same freshness test; `none` models the `return None` miss. -/
def _cache_get {α : Type} (mem disk : String → Option (CachePayload α))
    (now : ℚ) (key : String) : Option α :=
  let fromDisk : Option α :=
    match disk key with
    | some payload => if now - payload.ts < 24 * 3600 then some payload.data else none
    | none => none
  match mem key with
  | some cached => if now - cached.ts < 24 * 3600 then some cached.data else fromDisk
  | none => fromDisk

/-- `_cache_set`: writes `{'_ts': now, 'data': data}` to both tiers. -/
def _cache_set {α : Type} (mem disk : String → Option (CachePayload α))
    (now : ℚ) (key : String) (data : α) :
    (String → Option (CachePayload α)) × (String → Option (CachePayload α)) :=
  let payload : CachePayload α := ⟨now, data⟩
  (fun k => if k = key then some payload else mem k,
   fun k => if k = key then some payload else disk k)

/-! ### `PriceAPI.compare_property_price` (api/price_api.py) -/

/-- The `market_data` dict as read by `compare_property_price`:
`market_data.get('price_per_sqm', 0)` and the optional `p10_m2`/`p90_m2`. -/
structure MarketData where
  price_per_sqm : Option ℚ := none
  p10_m2 : Option ℚ := none
  p90_m2 : Option ℚ := none
deriving DecidableEq

/-- The successful comparison dict (the echoed `market_data` key is not
re-recorded). -/
structure CompareResult where
  property_price_per_sqm : ℚ
  market_price_per_sqm : ℚ
  difference : ℚ
  percentage_difference : ℚ
  evaluation : String
  score : String
  relative_position : Option String
deriving DecidableEq

/-- `compare_property_price` either returns an error dict (`err`) or the
comparison dict (`ok`). -/
inductive CompareOut where
  | err (msg : String)
  | ok (r : CompareResult)
deriving DecidableEq

/-- The `score` carried by a comparison output, if any. -/
def CompareOut.scoreOf : CompareOut → Option String
  | .err _ => none
  | .ok r => some r.score

/-- The `evaluation` carried by a comparison output, if any. -/
def CompareOut.evalOf : CompareOut → Option String
  | .err _ => none
  | .ok r => some r.evaluation

/-- `PriceAPI.compare_property_price`.  `if not property_surface or
property_surface <= 0` is `property_surface ≤ 0` for a number, and
`p10 and p90` truthiness is `p10 ≠ 0 ∧ p90 ≠ 0`. -/
def compare_property_price (property_price property_surface : ℚ)
    (market_data : MarketData) : CompareOut :=
  if property_surface ≤ 0 then .err "Surface invalide"
  else
    let property_price_per_sqm := property_price / property_surface
    let market_price_per_sqm := market_data.price_per_sqm.getD 0
    if market_price_per_sqm ≤ 0 then .err "Données de marché invalides"
    else
      let difference := property_price_per_sqm - market_price_per_sqm
      let percentage_difference := difference / market_price_per_sqm * 100
      let ev : String × String :=
        if percentage_difference ≤ -15 then ("Très bon prix (>15% sous le marché)", "Excellent")
        else if percentage_difference ≤ -5 then ("Bon prix (5-15% sous le marché)", "Bon")
        else if percentage_difference ≤ 5 then ("Prix dans la moyenne (±5%)", "Correct")
        else if percentage_difference ≤ 15 then ("Prix un peu élevé (5-15% au-dessus)", "Élevé")
        else ("Prix très élevé (>15% au-dessus)", "Très élevé")
      let relative_position : Option String :=
        match market_data.p10_m2, market_data.p90_m2 with
        | some p10, some p90 =>
          if p10 ≠ 0 ∧ p90 ≠ 0 then
            some (if property_price_per_sqm < p10 then "Très sous le marché"
                  else if property_price_per_sqm > p90 then "Très au-dessus du marché"
                  else "Dans l’intervalle inter-déciles")
          else none
        | _, _ => none
      .ok ⟨property_price_per_sqm, market_price_per_sqm, difference,
           percentage_difference, ev.1, ev.2, relative_position⟩

/-! ### `PriceAPI._query_dvf_aggregate` / `get_local_prices` (api/price_api.py)

`do_request` (the inner function of `_query_dvf_aggregate`) issues a series
of HTTP GETs against the `analyze` endpoint and feeds each 200-response
through `extract_sums_from_series`, obtaining a pair
(sum of `valeur_fonciere`, sum of `surface_reelle_bati`).  Each kind of
query is modelled as an oracle returning that pair directly; a non-200
status or a missing/empty `series` is the pair `(0, 0)` (which is exactly
what `extract_sums_from_series` contributes in those cases, since a failed
request adds nothing and an empty extraction adds `(0.0, 0.0)`). -/

/-- Oracle for one base URL of the `analyze` endpoint. -/
structure AggOracle where
  /-- Sums for `refine.code_commune = c` over the 24-month window. -/
  directSums : String → ℚ × ℚ
  /-- Sums for the `refine.code_postal` query, already post-filtered by the
  expanded commune codes (`codes_filter=exp_codes`). -/
  postalSums : ℚ × ℚ
  /-- Sums for the by-name query with the given refine field
  (`nom_commune` or `commune`), post-filtered by the expanded codes. -/
  nameSums : String → ℚ × ℚ
  /-- Sums for `refine.code_commune = c` over the widened 36-month window. -/
  wideSums : String → ℚ × ℚ

/-- The dict returned by `do_request` / `_query_dvf_aggregate`:
`{'avg_m2': ..., 'count': None, 'period_months': months}`. -/
structure Agg where
  avg_m2 : ℚ
  count : Option ℕ
  period_months : ℕ
deriving DecidableEq

/-- The inner `do_request` of `_query_dvf_aggregate`, for one base URL.
The running totals accumulate across strategies exactly as in the source.
Where the source only re-tests `total_price > 0 and total_surf > 0` inside
an `if postal_code:` / `if city:` block, the test is harmlessly repeated
here when that argument is `None` (the totals are unchanged then, and the
test already failed on them). -/
def do_request (o : AggOracle) (insee_code : String) (months : ℕ)
    (city postal_code : Option String) : Option Agg :=
  let exp_codes := _expand_insee_to_query insee_code
  let t1 := exp_codes.foldl (fun acc c => acc + o.directSums c) (0, 0)
  if 0 < t1.1 ∧ 0 < t1.2 then some ⟨t1.1 / t1.2, none, months⟩
  else
    let t2 := match postal_code with
      | some _ => t1 + o.postalSums
      | none => t1
    if 0 < t2.1 ∧ 0 < t2.2 then some ⟨t2.1 / t2.2, none, months⟩
    else
      let t3 := match city with
        | some _ => t2 + o.nameSums "nom_commune"
        | none => t2
      if 0 < t3.1 ∧ 0 < t3.2 then some ⟨t3.1 / t3.2, none, months⟩
      else
        let t4 := match city with
          | some _ => t3 + o.nameSums "commune"
          | none => t3
        if 0 < t4.1 ∧ 0 < t4.2 then some ⟨t4.1 / t4.2, none, months⟩
        else if t4.1 = 0 ∧ t4.2 = 0 then
          let t5 := exp_codes.foldl (fun acc c => acc + o.wideSums c) t4
          if 0 < t5.1 ∧ 0 < t5.2 then some ⟨t5.1 / t5.2, none, months⟩ else none
        else none

/-- `_query_dvf_aggregate`: try each base URL in order, returning the first
non-`None` `do_request` outcome. -/
def _query_dvf_aggregate (oracles : List AggOracle) (insee_code : String)
    (months : ℕ) (city postal_code : Option String) : Option Agg :=
  oracles.findSome? (fun o => do_request o insee_code months city postal_code)

/-- The result dict built by `get_local_prices` on the success path. -/
structure LocalPrices where
  price_per_sqm : ℤ
  min_price : Option ℤ := none
  max_price : Option ℤ := none
  transaction_count : String ⊕ ℕ
  data_period : String
  city : String
  postal_code : Option String
  property_type : String
  source : String
  confidence : Option ℚ := none
deriving DecidableEq

/-- `agg.get("count") or "N/A"`: a falsy count (None or 0) becomes "N/A". -/
def countOrNA : Option ℕ → String ⊕ ℕ
  | some n => if n = 0 then Sum.inl "N/A" else Sum.inr n
  | none => Sum.inl "N/A"

/-- `get_local_prices` either returns `{'error': msg}` or the result dict. -/
inductive LocalOut where
  | err (msg : String)
  | ok (r : LocalPrices)
deriving DecidableEq

/-- `PriceAPI.get_local_prices`.  `insee_code` is the outcome of
`_resolve_insee` (a network lookup, supplied as an oracle); `cached` is the
outcome of `_cache_get` on the current cache state; the `_cache_set` call on
the success path only mutates the cache and does not affect the returned
value, so it is not modelled.  `months = 24` as in the source. -/
def get_local_prices (insee_code : Option String)
    (cached : String → Option LocalPrices) (oracles : List AggOracle)
    (city : String) (postal_code : Option String) (property_type : String) :
    LocalOut :=
  let months : ℕ := 24
  match insee_code with
  | none => .err "Aucune estimation DVF disponible (INSEE introuvable)"
  | some insee =>
    let cache_key := "agg:" ++ insee ++ ":" ++ property_type ++ ":" ++ toString months
    match cached cache_key with
    | some r => .ok r
    | none =>
      match _query_dvf_aggregate oracles insee months (some city) postal_code with
      | some agg =>
        if agg.avg_m2 ≠ 0 then
          .ok ⟨Py.pyround agg.avg_m2, none, none, countOrNA agg.count,
               toString months ++ " derniers mois", city, postal_code,
               property_type, "DVF (agrégat API)", none⟩
        else .err "Aucune estimation DVF disponible"
      | none => .err "Aucune estimation DVF disponible"

/-- Modelled from the spec: percentile `p` via linear interpolation between
the order statistics at `floor(k)` and `ceil(k)`, for rank
`k = (n-1) * p/100` over a sorted list of length `n`.  Stated from the
spec's words, independently of the source, for comparison with
`percentile`. -/
def specInterpolatedPercentile (l : List ℚ) (p : ℚ) : ℚ :=
  let k : ℚ := ((l.length : ℚ) - 1) * (p / 100)
  l.getD (⌊k⌋).toNat 0 + (k - ⌊k⌋) * (l.getD (⌈k⌉).toNat 0 - l.getD (⌊k⌋).toNat 0)

/-- Oracle for the postal-fallback scenario: the direct commune query finds
no records, while the postal-code query aggregates 20 valid records of
200000 € for 50 m² each — sums (4000000, 1000). -/
def postalOnlyOracle : AggOracle :=
  ⟨fun _ => (0, 0), (4000000, 1000), fun _ => (0, 0), fun _ => (0, 0)⟩

end PriceApi

namespace PriceApiSimple

/-! ### `SimplePriceAPI` (api/price_api_simple.py) -/

/-- One row of `self.reference_prices`:
`{'apartment': ..., 'house': ..., 'reliability': ...}` keyed by city name. -/
structure RefRow where
  name : String
  apartment : ℚ
  house : ℚ
  reliability : ℚ
deriving DecidableEq

/-- The `'_default'` row: national average prices. -/
def default_row : RefRow := ⟨"_default", 3200, 3600, 65⟩

/-- `self.reference_prices`, in dict insertion order ('_default' last). -/
def reference_prices : List RefRow :=
  [⟨"paris", 10800, 12500, 95⟩,
   ⟨"lyon", 5100, 5800, 90⟩,
   ⟨"marseille", 3800, 4200, 88⟩,
   ⟨"toulouse", 4100, 4500, 87⟩,
   ⟨"nice", 5500, 6800, 89⟩,
   ⟨"nantes", 4200, 4800, 86⟩,
   ⟨"strasbourg", 3500, 4000, 84⟩,
   ⟨"montpellier", 4000, 4600, 85⟩,
   ⟨"bordeaux", 4800, 5400, 88⟩,
   ⟨"lille", 3300, 3800, 83⟩,
   ⟨"rennes", 3900, 4400, 84⟩,
   ⟨"reims", 2400, 2800, 78⟩,
   ⟨"toulon", 3600, 4200, 80⟩,
   ⟨"grenoble", 3700, 4300, 82⟩,
   ⟨"dijon", 2900, 3400, 79⟩,
   ⟨"angers", 3100, 3600, 80⟩,
   ⟨"nimes", 2700, 3200, 77⟩,
   ⟨"villeurbanne", 4800, 5400, 85⟩,
   ⟨"clermont-ferrand", 2500, 3000, 76⟩,
   ⟨"aix-en-provence", 5200, 6500, 87⟩,
   ⟨"brest", 2600, 3100, 78⟩,
   ⟨"tours", 3000, 3500, 79⟩,
   ⟨"amiens", 2300, 2700, 75⟩,
   ⟨"limoges", 1900, 2400, 72⟩,
   ⟨"annecy", 5800, 7200, 88⟩,
   default_row]

/-- `data.get(prop_type, data.get('apartment', 3200))` for a row that always
carries both categories. -/
def RefRow.priceFor (row : RefRow) (prop_type : String) : ℚ :=
  if prop_type = "apartment" then row.apartment
  else if prop_type = "house" then row.house
  else row.apartment

/-- The type normalisation at the top of `get_price_estimate`: maison/house →
'house'; appartement/apartment/studio → 'apartment'; anything else →
'apartment'. -/
def normType (property_type : String) : String :=
  if Py.lower property_type ∈ (["maison", "house"] : List String) then "house"
  else if Py.lower property_type ∈ (["appartement", "apartment", "studio"] : List String) then
    "apartment"
  else "apartment"

/-- The estimate dict returned by `SimplePriceAPI.get_price_estimate`. -/
structure Estimate where
  price_per_sqm : ℚ
  source : String
  reliability_score : ℚ
  data_period : String
deriving DecidableEq

/-- The body of `get_price_estimate` after type normalisation: exact dict
lookup, then the partial-containment scan over non-default rows in table
order (first match wins), then the `'_default'` fallback. -/
def getPriceForType (city : String) (prop_type : String) : Estimate :=
  let city_normalized := Py.strip (Py.lower city)
  match reference_prices.find? (fun row => row.name = city_normalized) with
  | some data =>
    ⟨data.priceFor prop_type, "Données DVF 2024 - " ++ Py.title city,
     data.reliability, "Année 2024"⟩
  | none =>
    match reference_prices.find? (fun row =>
        row.name ≠ "_default"
        && (Py.strIn row.name city_normalized || Py.strIn city_normalized row.name)) with
    | some data =>
      ⟨data.priceFor prop_type,
       "Données DVF 2024 - " ++ Py.title data.name ++ " (estimation)",
       max 50 (data.reliability - 10), "Année 2024"⟩
    | none =>
      ⟨default_row.priceFor prop_type, "Moyenne nationale DVF 2024",
       default_row.reliability, "Année 2024"⟩

/-- `SimplePriceAPI.get_price_estimate`. -/
def get_price_estimate (city : String) (property_type : String) : Estimate :=
  getPriceForType city (normType property_type)

/-- The `market_data` dict as read by the simple comparator
(`market_data.get('price_per_sqm', 3200)`). -/
structure MarketData where
  price_per_sqm : Option ℚ := none
deriving DecidableEq

/-- The successful simple-comparison dict (values pre-rounded as in the
source). -/
structure CompareResult where
  property_price_per_sqm : ℚ
  market_price_per_sqm : ℚ
  percentage_difference : ℚ
  score : String
deriving DecidableEq

/-- The simple comparator returns an error dict, raises an uncaught Python
exception, or returns the comparison dict. -/
inductive CompareOut where
  | err (msg : String)
  | raised (msg : String)
  | ok (r : CompareResult)
deriving DecidableEq

/-- `SimplePriceAPI.compare_property_price`.  Unlike `PriceAPI`, there is no
market-price validity check: a market price of exactly 0 reaches the
division `(pps - mps) / mps` and raises `ZeroDivisionError`; a negative one
silently flows through. -/
def compare_property_price (property_price property_surface : ℚ)
    (market_data : MarketData) : CompareOut :=
  if property_surface ≤ 0 then .err "Surface invalide"
  else
    let property_price_sqm := property_price / property_surface
    let market_price_sqm := market_data.price_per_sqm.getD 3200
    if market_price_sqm = 0 then .raised "ZeroDivisionError"
    else
      let diff := (property_price_sqm - market_price_sqm) / market_price_sqm * 100
      let score :=
        if diff < -10 then "🟢 Excellent prix"
        else if diff < 0 then "🟢 Bon prix"
        else if diff < 10 then "🟡 Prix correct"
        else if diff < 20 then "🟠 Légèrement surcoté"
        else "🔴 Surcoté"
      .ok ⟨Py.roundTo property_price_sqm 2, Py.roundTo market_price_sqm 2,
           Py.roundTo diff 1, score⟩

end PriceApiSimple

namespace PriceApiDvf

/-! ### `DVFPriceAPI` (api/price_api_dvf.py) -/

/-- The estimate dict returned by `DVFPriceAPI` (fallback path). -/
structure Estimate where
  price_per_sqm : ℚ
  source : String
  reliability_score : ℚ
  data_period : String
  transaction_count : ℕ
deriving DecidableEq

/-- `DVFPriceAPI._get_fallback_price`: national default prices with a source
label naming the unfound city when one is given. -/
def _get_fallback_price (property_type : String) (city : Option String := none) :
    Estimate :=
  let prices : ℚ :=
    if property_type = "apartment" then 3200
    else if property_type = "house" then 3600
    else if property_type = "other" then 3000
    else 3200
  let source : String :=
    match city with
    | some c => "Estimation nationale (ville \"" ++ c ++ "\" non trouvée dans DVF S1 2025)"
    | none => "Moyenne nationale DVF 2024"
  ⟨prices, source, 60, "Moyenne nationale", 0⟩

end PriceApiDvf

namespace Py

lemma pyround_mono {a b : ℚ} (h : a ≤ b) : pyround a ≤ pyround b := by
  have hfl : ⌊a⌋ ≤ ⌊b⌋ := Int.floor_mono h
  rcases eq_or_lt_of_le hfl with hfe | hflt
  · have hr : a - (⌊a⌋ : ℚ) ≤ b - (⌊b⌋ : ℚ) := by
      rw [← hfe]; linarith
    unfold pyround
    rw [← hfe]
    split_ifs <;> first | omega | linarith
  · unfold pyround
    split_ifs <;> omega

end Py

namespace PriceApi

/-! ### Lemmas about the statistics engine -/

lemma percentile_closed (l : List ℚ) (p : ℚ) (hne : l ≠ []) (hp0 : 0 ≤ p) (hp1 : p ≤ 100) :
    percentile l p =
      l.getD (⌊((l.length : ℚ) - 1) * (p / 100)⌋).toNat 0
        + (((l.length : ℚ) - 1) * (p / 100) - (⌊((l.length : ℚ) - 1) * (p / 100)⌋ : ℤ))
          * (l.getD (min ((⌊((l.length : ℚ) - 1) * (p / 100)⌋).toNat + 1) (l.length - 1)) 0
              - l.getD (⌊((l.length : ℚ) - 1) * (p / 100)⌋).toNat 0) := by
  have hlen : 1 ≤ l.length := List.length_pos.mpr hne
  unfold percentile
  rw [if_neg (by simpa [List.isEmpty_iff] using hne)]
  set n := l.length with hn
  set k : ℚ := ((n : ℚ) - 1) * (p / 100) with hk
  have hn1 : (1 : ℚ) ≤ (n : ℚ) := by exact_mod_cast hlen
  have hk0 : 0 ≤ k := by
    apply mul_nonneg (by linarith) (by positivity)
  have hk1 : k ≤ (n : ℚ) - 1 := by
    have h2 : p / 100 ≤ 1 := by linarith
    calc k = ((n : ℚ) - 1) * (p / 100) := rfl
      _ ≤ ((n : ℚ) - 1) * 1 := mul_le_mul_of_nonneg_left h2 (by linarith)
      _ = (n : ℚ) - 1 := mul_one _
  have htr : Py.intTrunc k = ⌊k⌋ := by
    unfold Py.intTrunc; rw [if_neg (not_lt.mpr hk0)]
  have hfl0 : (0 : ℤ) ≤ ⌊k⌋ := Int.floor_nonneg.mpr hk0
  have hfl1 : ⌊k⌋ ≤ (n : ℤ) - 1 := by
    have h3 := Int.floor_mono hk1
    rwa [show ((n : ℚ) - 1) = (((n : ℤ) - 1 : ℤ) : ℚ) by push_cast; ring,
      Int.floor_intCast] at h3
  dsimp only
  rw [htr]
  rcases eq_or_lt_of_le hfl1 with hc | hc
  · have hmin : min (⌊k⌋ + 1) ((n : ℤ) - 1) = ⌊k⌋ := by omega
    rw [hmin, if_pos rfl]
    have hkeq : (⌊k⌋ : ℚ) = k := by
      refine le_antisymm (Int.floor_le k) ?_
      have h4 : ((⌊k⌋ : ℤ) : ℚ) = ((n : ℚ) - 1) := by
        rw [hc]; push_cast; ring
      linarith [h4 ▸ hk1]
    rw [show k - ((⌊k⌋ : ℤ) : ℚ) = 0 by linarith]
    ring
  · have hmin : min (⌊k⌋ + 1) ((n : ℤ) - 1) = ⌊k⌋ + 1 := by omega
    rw [hmin, if_neg (by omega)]
    have hminN : min ((⌊k⌋).toNat + 1) (n - 1) = (⌊k⌋).toNat + 1 := by omega
    have htn : (⌊k⌋ + 1).toNat = (⌊k⌋).toNat + 1 := by omega
    rw [hminN, htn]
    have hcast : ((⌊k⌋ + 1 : ℤ) : ℚ) = (⌊k⌋ : ℚ) + 1 := by push_cast; ring
    rw [hcast]
    ring

lemma rank_le_rank (n : ℕ) {p q : ℚ} (hn : 1 ≤ n) (hpq : p ≤ q) :
    ((n : ℚ) - 1) * (p / 100) ≤ ((n : ℚ) - 1) * (q / 100) := by
  have hn1 : (1 : ℚ) ≤ (n : ℚ) := by exact_mod_cast hn
  apply mul_le_mul_of_nonneg_left (by linarith) (by linarith)

lemma rank_nonneg (n : ℕ) {p : ℚ} (hn : 1 ≤ n) (hp : 0 ≤ p) :
    0 ≤ ((n : ℚ) - 1) * (p / 100) := by
  have hn1 : (1 : ℚ) ≤ (n : ℚ) := by exact_mod_cast hn
  apply mul_nonneg (by linarith) (by positivity)

lemma rank_le_top (n : ℕ) {p : ℚ} (hn : 1 ≤ n) (hp : p ≤ 100) :
    ((n : ℚ) - 1) * (p / 100) ≤ (n : ℚ) - 1 := by
  have hn1 : (1 : ℚ) ≤ (n : ℚ) := by exact_mod_cast hn
  calc ((n : ℚ) - 1) * (p / 100) ≤ ((n : ℚ) - 1) * 1 :=
        mul_le_mul_of_nonneg_left (by linarith) (by linarith)
    _ = (n : ℚ) - 1 := mul_one _


lemma sorted_getD_mono {l : List ℚ} (hs : l.Sorted (· ≤ ·)) {i j : ℕ}
    (hij : i ≤ j) (hj : j < l.length) : l.getD i 0 ≤ l.getD j 0 := by
  have hi : i < l.length := lt_of_le_of_lt hij hj
  rw [List.getD_eq_getElem l 0 hi, List.getD_eq_getElem l 0 hj]
  exact hs.rel_get_of_le (by exact hij)

lemma interp_mono (l : List ℚ) (hs : l.Sorted (· ≤ ·))
    {kp kq : ℚ} (hkp0 : 0 ≤ kp) (hkpq : kp ≤ kq) (hkq1 : kq ≤ (l.length : ℚ) - 1) :
    l.getD (⌊kp⌋).toNat 0
        + (kp - (⌊kp⌋ : ℤ)) * (l.getD (min ((⌊kp⌋).toNat + 1) (l.length - 1)) 0
            - l.getD (⌊kp⌋).toNat 0)
      ≤ l.getD (⌊kq⌋).toNat 0
        + (kq - (⌊kq⌋ : ℤ)) * (l.getD (min ((⌊kq⌋).toNat + 1) (l.length - 1)) 0
            - l.getD (⌊kq⌋).toNat 0) := by
  set n := l.length with hn
  have hkq0 : 0 ≤ kq := le_trans hkp0 hkpq
  have hn1q : (1 : ℚ) ≤ (n : ℚ) := by linarith
  have hn1 : 1 ≤ n := by exact_mod_cast hn1q
  have hFp0 : (0 : ℤ) ≤ ⌊kp⌋ := Int.floor_nonneg.mpr hkp0
  have hFpq : ⌊kp⌋ ≤ ⌊kq⌋ := Int.floor_mono hkpq
  have hFq1 : ⌊kq⌋ ≤ (n : ℤ) - 1 := by
    have h3 := Int.floor_mono hkq1
    rwa [show ((n : ℚ) - 1) = (((n : ℤ) - 1 : ℤ) : ℚ) by push_cast; ring,
      Int.floor_intCast] at h3
  have hrp0 : 0 ≤ kp - ((⌊kp⌋ : ℤ) : ℚ) := sub_nonneg.mpr (Int.floor_le kp)
  have hrp1 : kp - ((⌊kp⌋ : ℤ) : ℚ) < 1 := by linarith [Int.lt_floor_add_one kp]
  have hrq0 : 0 ≤ kq - ((⌊kq⌋ : ℤ) : ℚ) := sub_nonneg.mpr (Int.floor_le kq)
  have hcpn : min ((⌊kp⌋).toNat + 1) (n - 1) < n := by omega
  have hapcp : (⌊kp⌋).toNat ≤ min ((⌊kp⌋).toNat + 1) (n - 1) := by omega
  have hcqn : min ((⌊kq⌋).toNat + 1) (n - 1) < n := by omega
  have haqcq : (⌊kq⌋).toNat ≤ min ((⌊kq⌋).toNat + 1) (n - 1) := by omega
  have haqn : (⌊kq⌋).toNat < n := by omega
  have hAB : l.getD (⌊kp⌋).toNat 0 ≤ l.getD (min ((⌊kp⌋).toNat + 1) (n - 1)) 0 :=
    sorted_getD_mono hs hapcp hcpn
  have hCD : l.getD (⌊kq⌋).toNat 0 ≤ l.getD (min ((⌊kq⌋).toNat + 1) (n - 1)) 0 :=
    sorted_getD_mono hs haqcq hcqn
  rcases eq_or_lt_of_le hFpq with hFeq | hFlt
  · rw [hFeq] at hrp0 ⊢
    have hr : kp - ((⌊kq⌋ : ℤ) : ℚ) ≤ kq - ((⌊kq⌋ : ℤ) : ℚ) := by linarith
    have key := mul_le_mul_of_nonneg_right hr
      (sub_nonneg.mpr (hFeq ▸ hCD : l.getD (⌊kq⌋).toNat 0
        ≤ l.getD (min ((⌊kq⌋).toNat + 1) (n - 1)) 0))
    linarith
  · have h1 : l.getD (⌊kp⌋).toNat 0
        + (kp - ((⌊kp⌋ : ℤ) : ℚ)) * (l.getD (min ((⌊kp⌋).toNat + 1) (n - 1)) 0
            - l.getD (⌊kp⌋).toNat 0)
        ≤ l.getD (min ((⌊kp⌋).toNat + 1) (n - 1)) 0 := by
      nlinarith [mul_nonneg (by linarith : (0:ℚ) ≤ 1 - (kp - ((⌊kp⌋ : ℤ) : ℚ)))
        (sub_nonneg.mpr hAB)]
    have h2 : l.getD (min ((⌊kp⌋).toNat + 1) (n - 1)) 0 ≤ l.getD (⌊kq⌋).toNat 0 :=
      sorted_getD_mono hs (by omega) haqn
    have h3 : l.getD (⌊kq⌋).toNat 0
        ≤ l.getD (⌊kq⌋).toNat 0
          + (kq - ((⌊kq⌋ : ℤ) : ℚ)) * (l.getD (min ((⌊kq⌋).toNat + 1) (n - 1)) 0
              - l.getD (⌊kq⌋).toNat 0) := by
      nlinarith [mul_nonneg hrq0 (sub_nonneg.mpr hCD)]
    linarith


lemma percentile_mono (l : List ℚ) (hs : l.Sorted (· ≤ ·)) (hne : l ≠ [])
    {p q : ℚ} (hp0 : 0 ≤ p) (hpq : p ≤ q) (hq1 : q ≤ 100) :
    percentile l p ≤ percentile l q := by
  have hlen : 1 ≤ l.length := List.length_pos.mpr hne
  have hq0 : 0 ≤ q := le_trans hp0 hpq
  have hp1 : p ≤ 100 := le_trans hpq hq1
  rw [percentile_closed l p hne hp0 hp1, percentile_closed l q hne hq0 hq1]
  exact interp_mono l hs (rank_nonneg l.length hlen hp0)
    (rank_le_rank l.length hlen hpq) (rank_le_top l.length hlen hq1)

lemma pymedian_eq_percentile_fifty (l : List ℚ) (hne : l ≠ []) :
    pymedian l = percentile l 50 := by
  have hlen : 1 ≤ l.length := List.length_pos.mpr hne
  rw [percentile_closed l 50 hne (by norm_num) (by norm_num)]
  rcases Nat.even_or_odd l.length with he | ho
  · obtain ⟨m, hm⟩ := he
    have hm1 : 1 ≤ m := by omega
    have hkval : ((l.length : ℚ) - 1) * (50 / 100) = (m : ℚ) - 1 / 2 := by
      rw [hm]; push_cast; ring
    have hfl : ⌊((l.length : ℚ) - 1) * (50 / 100)⌋ = (m : ℤ) - 1 := by
      rw [hkval, Int.floor_eq_iff]
      constructor
      · push_cast; linarith
      · push_cast; linarith
    have htn : ((m : ℤ) - 1).toNat = m - 1 := by omega
    have hminN : min (((m : ℤ) - 1).toNat + 1) (l.length - 1) = m := by omega
    rw [hfl, hminN, htn, hkval]
    have hfrac : (m : ℚ) - 1 / 2 - (((m : ℤ) - 1 : ℤ) : ℚ) = 1 / 2 := by
      push_cast; ring
    rw [hfrac]
    unfold pymedian
    rw [if_neg (by omega)]
    have h1 : l.length / 2 - 1 = m - 1 := by omega
    have h2 : l.length / 2 = m := by omega
    rw [h1, h2]
    ring
  · obtain ⟨m, hm⟩ := ho
    have hkval : ((l.length : ℚ) - 1) * (50 / 100) = (m : ℚ) := by
      rw [hm]; push_cast; ring
    have hfl : ⌊((l.length : ℚ) - 1) * (50 / 100)⌋ = (m : ℤ) := by
      rw [hkval, Int.floor_natCast]
    rw [hfl, hkval]
    have htn : ((m : ℤ)).toNat = m := by omega
    rw [htn]
    have hfrac : (m : ℚ) - ((m : ℤ) : ℚ) = 0 := by push_cast; ring
    rw [hfrac]
    unfold pymedian
    rw [if_pos (by omega)]
    have h2 : l.length / 2 = m := by omega
    rw [h2]
    ring


end PriceApi

/-! ### Helper lemmas for the orchestrator and the statistics filter -/

namespace PriceApi

lemma compute_stats_filter_eq {txs txs' : List Tx}
    (h : txs.filter txKeep = txs'.filter txKeep) :
    _compute_stats txs = _compute_stats txs' := by
  unfold _compute_stats
  rw [h]

lemma foldl_add_pairs_zero (codes : List String) (f : String → ℚ × ℚ)
    (hf : ∀ c, f c = (0, 0)) :
    codes.foldl (fun acc c => acc + f c) ((0 : ℚ), (0 : ℚ)) = (0, 0) := by
  induction codes with
  | nil => rfl
  | cons c cs ih =>
    rw [List.foldl_cons, hf c]
    simpa using ih

lemma zero_pair_add (x : ℚ × ℚ) : ((0 : ℚ), (0 : ℚ)) + x = x := by
  apply Prod.ext <;> simp

/-- Shared evaluation: when every direct commune query contributes nothing
and the postal-code query carries positive sums, `get_local_prices` (on a
cache miss) returns the live aggregate estimate, whose `transaction_count`
is the string "N/A" because `do_request` always sets `count` to `None`. -/
lemma get_local_prices_postal_path (o : AggOracle)
    (cached : String → Option LocalPrices) (insee city pc property_type : String)
    (hdir : ∀ c, o.directSums c = (0, 0))
    (hp : 0 < o.postalSums.1) (hs : 0 < o.postalSums.2)
    (hcache : cached ("agg:" ++ insee ++ ":" ++ property_type ++ ":" ++ toString 24) = none) :
    get_local_prices (some insee) cached [o] city (some pc) property_type =
      .ok ⟨Py.pyround (o.postalSums.1 / o.postalSums.2), none, none, Sum.inl "N/A",
           toString 24 ++ " derniers mois", city, some pc, property_type,
           "DVF (agrégat API)", none⟩ := by
  have hdo : do_request o insee 24 (some city) (some pc)
      = some ⟨o.postalSums.1 / o.postalSums.2, none, 24⟩ := by
    unfold do_request
    dsimp only
    rw [foldl_add_pairs_zero _ _ hdir]
    rw [if_neg (by norm_num)]
    rw [zero_pair_add]
    rw [if_pos ⟨hp, hs⟩]
  have hagg : _query_dvf_aggregate [o] insee 24 (some city) (some pc)
      = some ⟨o.postalSums.1 / o.postalSums.2, none, 24⟩ := by
    unfold _query_dvf_aggregate
    simp [List.findSome?, hdo]
  unfold get_local_prices
  dsimp only
  rw [hcache, hagg]
  dsimp only
  rw [if_pos]
  · rfl
  · exact ne_of_gt (div_pos hp hs)

end PriceApi

/-! ### Claim theorems -/

set_option maxRecDepth 4000

namespace PriceApi

/-- C1: for every sorted non-empty list of per-area prices and every
percentile `p` in [0, 100], `percentile` computes the rank
`k = (n-1) * p/100` and linearly interpolates between the order statistics
at `floor(k)` and `ceil(k)` (the spec-side formula
`specInterpolatedPercentile`); in particular on `[100, 200, 300, 400, 500]`
p10 is 140 and p90 is 460. -/
theorem c1_percentile_linear_interpolation :
    (∀ (l : List ℚ) (p : ℚ), l.Sorted (· ≤ ·) → l ≠ [] → 0 ≤ p → p ≤ 100 →
      percentile l p = specInterpolatedPercentile l p)
    ∧ percentile [100, 200, 300, 400, 500] 10 = 140
    ∧ percentile [100, 200, 300, 400, 500] 90 = 460 := by
  refine ⟨?_, ?_, ?_⟩
  · intro l p hsorted hne hp0 hp1
    have hlen : 1 ≤ l.length := List.length_pos.mpr hne
    rw [percentile_closed l p hne hp0 hp1]
    unfold specInterpolatedPercentile
    dsimp only
    set k : ℚ := ((l.length : ℚ) - 1) * (p / 100) with hk
    have hk0 : 0 ≤ k := rank_nonneg l.length hlen hp0
    have hk1 : k ≤ (l.length : ℚ) - 1 := rank_le_top l.length hlen hp1
    have hfl0 : (0 : ℤ) ≤ ⌊k⌋ := Int.floor_nonneg.mpr hk0
    have hfl1 : ⌊k⌋ ≤ (l.length : ℤ) - 1 := by
      have h3 := Int.floor_mono hk1
      rwa [show ((l.length : ℚ) - 1) = (((l.length : ℤ) - 1 : ℤ) : ℚ) by push_cast; ring,
        Int.floor_intCast] at h3
    rcases eq_or_lt_of_le (Int.floor_le k) with hfe | hflt
    · rw [show k - ((⌊k⌋ : ℤ) : ℚ) = 0 by linarith]
      ring
    · have hceil : ⌈k⌉ = ⌊k⌋ + 1 := by
        rw [Int.ceil_eq_iff]
        constructor
        · push_cast; linarith
        · push_cast; linarith [Int.lt_floor_add_one k]
      have hlt : ⌊k⌋ < (l.length : ℤ) - 1 := by
        rcases eq_or_lt_of_le hfl1 with he | h
        · exfalso
          have h4 : ((⌊k⌋ : ℤ) : ℚ) = (l.length : ℚ) - 1 := by rw [he]; push_cast; ring
          linarith
        · exact h
      have hminN : min ((⌊k⌋).toNat + 1) (l.length - 1) = (⌊k⌋).toNat + 1 := by omega
      have htn : (⌊k⌋ + 1).toNat = (⌊k⌋).toNat + 1 := by omega
      rw [hceil, hminN, htn]
  · norm_num [percentile, Py.intTrunc, List.getD_cons_zero, List.getD_cons_succ,
      Int.toNat_ofNat]
  · norm_num [percentile, Py.intTrunc, List.getD_cons_zero, List.getD_cons_succ,
      Int.toNat_ofNat, show (3 : ℤ).toNat = 3 from rfl, show (4 : ℤ).toNat = 4 from rfl]

/-- Witness for C1 at the spec's example list and p = 10. -/
theorem c1_percentile_witness :
    percentile [100, 200, 300, 400, 500] 10
      = specInterpolatedPercentile [100, 200, 300, 400, 500] 10 :=
  c1_percentile_linear_interpolation.1 [100, 200, 300, 400, 500] 10
    (by decide) (by decide) (by decide) (by decide)

/-- C2 (amended): `PriceAPI.compare_property_price` (api/price_api.py) uses
the five bands with thresholds −15, −5, 5, 15, inclusive on the lower edge:
score "Excellent" (very good price) iff pct ≤ −15, "Bon" (good) iff
−15 < pct ≤ −5, "Correct" (market average) iff −5 < pct ≤ 5, "Élevé"
(slightly high) iff 5 < pct ≤ 15, and "Très élevé" (high) iff 15 < pct;
in particular pct = −15.0 is "Excellent"/"Très bon prix" and pct = −14.999
is "Bon"/"Bon prix".  (`SimplePriceAPI.compare_property_price` instead uses
strict thresholds −10, 0, 10, 20 — see the counterexample.) -/
theorem c2_comparator_band_thresholds :
    (∀ (property_price property_surface : ℚ) (md : MarketData),
      0 < property_surface → 0 < md.price_per_sqm.getD 0 →
      ∃ r, compare_property_price property_price property_surface md = .ok r ∧
        r.percentage_difference =
          (property_price / property_surface - md.price_per_sqm.getD 0)
            / md.price_per_sqm.getD 0 * 100 ∧
        (r.score = "Excellent" ↔ r.percentage_difference ≤ -15) ∧
        (r.score = "Bon" ↔ -15 < r.percentage_difference ∧ r.percentage_difference ≤ -5) ∧
        (r.score = "Correct" ↔ -5 < r.percentage_difference ∧ r.percentage_difference ≤ 5) ∧
        (r.score = "Élevé" ↔ 5 < r.percentage_difference ∧ r.percentage_difference ≤ 15) ∧
        (r.score = "Très élevé" ↔ 15 < r.percentage_difference))
    ∧ (compare_property_price 850 1 ⟨some 1000, none, none⟩).scoreOf = some "Excellent"
    ∧ (compare_property_price 850 1 ⟨some 1000, none, none⟩).evalOf
        = some "Très bon prix (>15% sous le marché)"
    ∧ (compare_property_price (85001/100) 1 ⟨some 1000, none, none⟩).scoreOf = some "Bon"
    ∧ (compare_property_price (85001/100) 1 ⟨some 1000, none, none⟩).evalOf
        = some "Bon prix (5-15% sous le marché)" := by
  refine ⟨?_,
    by norm_num [compare_property_price, CompareOut.scoreOf],
    by norm_num [compare_property_price, CompareOut.evalOf],
    by norm_num [compare_property_price, CompareOut.scoreOf],
    by norm_num [compare_property_price, CompareOut.evalOf]⟩
  intro pp ps md hs hm
  unfold compare_property_price
  rw [if_neg (not_le.mpr hs), if_neg (not_le.mpr hm)]
  dsimp only
  refine ⟨_, rfl, ?_⟩
  set pct := (pp / ps - md.price_per_sqm.getD 0) / md.price_per_sqm.getD 0 * 100 with hpct
  refine ⟨rfl, ?_, ?_, ?_, ?_, ?_⟩ <;>
    split_ifs with h1 h2 h3 h4 <;>
    simp only [String.reduceEq, true_iff, false_iff, iff_true, iff_false,
      not_and, not_lt, not_le] <;>
    first
      | rfl
      | linarith
      | (constructor <;> linarith)
      | (intro h; linarith)

/-- Witness for C2 at pct = −10 (surface 1 m², market 1000 €/m²). -/
theorem c2_comparator_band_witness :
    ∃ r, compare_property_price 900 1 ⟨some 1000, none, none⟩ = .ok r ∧
      r.percentage_difference = (900 / 1 - 1000) / 1000 * 100 ∧
      (r.score = "Excellent" ↔ r.percentage_difference ≤ -15) ∧
      (r.score = "Bon" ↔ -15 < r.percentage_difference ∧ r.percentage_difference ≤ -5) ∧
      (r.score = "Correct" ↔ -5 < r.percentage_difference ∧ r.percentage_difference ≤ 5) ∧
      (r.score = "Élevé" ↔ 5 < r.percentage_difference ∧ r.percentage_difference ≤ 15) ∧
      (r.score = "Très élevé" ↔ 15 < r.percentage_difference) :=
  c2_comparator_band_thresholds.1 900 1 ⟨some 1000, none, none⟩
    (by norm_num) (by norm_num)

end PriceApi

/-- C2 counterexample: the claim also cites
`SimplePriceAPI.compare_property_price` (api/price_api_simple.py), whose
bands are `< -10 / < 0 / < 10 / < 20` with strict thresholds: at
pct_diff = −14.999 (property 850.01 € for 1 m² against a 1000 €/m² market)
it returns the top band "🟢 Excellent prix", not the second band
"🟢 Bon prix" that the claimed (−15, −5] → "good price" banding requires. -/
theorem c2_simple_band_counterexample :
    PriceApiSimple.compare_property_price (85001/100) 1 ⟨some 1000⟩
      = .ok ⟨85001/100, 1000, -15, "🟢 Excellent prix"⟩
    ∧ ((85001 : ℚ)/100 / 1 - 1000) / 1000 * 100 = -14999/1000
    ∧ ("🟢 Excellent prix" : String) ≠ "🟢 Bon prix" := by
  refine ⟨?_, by norm_num, by decide⟩
  norm_num [PriceApiSimple.compare_property_price, Py.roundTo, Py.pyround]

namespace PriceApi

/-- C3 (amended): `_compute_stats` filters every input record: a record with
`area = 5` or `price = 500` never contributes — inserting it anywhere leaves
the entire computed statistics (median/p10/p90/count/last date) unchanged —
and a record with `area = 50`, `price = 200000` whose optional `type` field
is absent, empty, or one of 'apartment'/'house'/'Appartement'/'Maison'
always contributes, raising the count by one.  (For an arbitrary `type`
such as "garage" the record is excluded — see the counterexample.) -/
theorem c3_plausibility_filter :
    (∀ (l1 l2 : List Tx) (tx : Tx), tx.surface = 5 ∨ tx.price = 500 →
      _compute_stats (l1 ++ tx :: l2) = _compute_stats (l1 ++ l2))
    ∧ (∀ (l1 l2 : List Tx) (tx : Tx),
      tx.price = 200000 → tx.surface = 50 → txTypeOk tx.type = true →
      ∃ s, _compute_stats (l1 ++ tx :: l2) = some s
        ∧ s.count = ((l1 ++ l2).filter txKeep).length + 1) := by
  constructor
  · intro l1 l2 tx h
    apply compute_stats_filter_eq
    have hk : txKeep tx = false := by
      unfold txKeep
      rcases h with h5 | h500
      · rw [if_pos (Or.inr (Or.inl (by rw [h5]; norm_num)))]
      · rw [if_pos (Or.inl (by rw [h500]; norm_num))]
    simp [List.filter_append, List.filter_cons, hk]
  · intro l1 l2 tx hp hs ht
    have hk : txKeep tx = true := by
      unfold txKeep
      have hno : ¬(tx.price ≤ 1000 ∨ tx.surface < 8 ∨ tx.surface > 300) := by
        push_neg
        exact ⟨by rw [hp]; norm_num, by rw [hs]; norm_num, by rw [hs]; norm_num⟩
      rw [if_neg hno]
      exact ht
    have hfil : (l1 ++ tx :: l2).filter txKeep
        = l1.filter txKeep ++ tx :: l2.filter txKeep := by
      simp [List.filter_append, List.filter_cons, hk]
    unfold _compute_stats
    rw [hfil]
    dsimp only
    rw [if_neg (by simp)]
    refine ⟨_, rfl, ?_⟩
    rw [(List.perm_insertionSort _ _).length_eq]
    simp [List.filter_append]
    omega

/-- Witness for C3: a 500 € record is dropped, leaving the statistics of the
remaining list. -/
theorem c3_plausibility_witness :
    _compute_stats [⟨500, 50, none, none⟩, ⟨200000, 50, none, none⟩]
      = _compute_stats [⟨200000, 50, none, none⟩] :=
  c3_plausibility_filter.1 [] [⟨200000, 50, none, none⟩] ⟨500, 50, none, none⟩
    (Or.inr rfl)

/-- C3 counterexample: a record with `price = 200000` and `area = 50` but
`type = "garage"` is excluded by the type check of `_compute_stats`
(`if t and t not in ('apartment', 'house', 'Appartement', 'Maison')`), so
it does not "always" contribute: alone it yields the empty marker. -/
theorem c3_type_filter_counterexample :
    _compute_stats [⟨200000, 50, some "garage", none⟩] = none := by decide

/-- C6: an entry written to the cache at time `tw` is returned by a read at
any time strictly before `tw + 24h` and is a miss at or after `tw + 24h`,
and this holds for the combined cache, for the memory tier alone, and for
the disk tier alone. -/
theorem c6_cache_ttl_24h :
    ∀ (α : Type) (mem disk : String → Option (CachePayload α)) (tw tr : ℚ)
      (key : String) (v : α),
      (tr - tw < 24 * 3600 →
        _cache_get (_cache_set mem disk tw key v).1 (_cache_set mem disk tw key v).2 tr key = some v
        ∧ _cache_get (_cache_set mem disk tw key v).1 (fun _ => none) tr key = some v
        ∧ _cache_get (fun _ => none) (_cache_set mem disk tw key v).2 tr key = some v)
      ∧ (24 * 3600 ≤ tr - tw →
        _cache_get (_cache_set mem disk tw key v).1 (_cache_set mem disk tw key v).2 tr key = none
        ∧ _cache_get (_cache_set mem disk tw key v).1 (fun _ => none) tr key = none
        ∧ _cache_get (fun _ => none) (_cache_set mem disk tw key v).2 tr key = none) := by
  intro α mem disk tw tr key v
  unfold _cache_get _cache_set
  simp only [if_pos rfl]
  constructor
  · intro h
    refine ⟨?_, ?_, ?_⟩ <;> simp [if_pos h]
  · intro h
    refine ⟨?_, ?_, ?_⟩ <;> simp [if_neg (not_lt.mpr h)]

/-- Witness for C6: write at 0, hit at 23h59m (86340 s), miss at 24h1m
(86460 s). -/
theorem c6_cache_ttl_witness :
    _cache_get (_cache_set (fun _ => none) (fun _ => none) 0 "agg:17300:house:24" (7 : ℚ)).1
        (_cache_set (fun _ => none) (fun _ => none) 0 "agg:17300:house:24" (7 : ℚ)).2
        86340 "agg:17300:house:24" = some 7
    ∧ _cache_get (_cache_set (fun _ => none) (fun _ => none) 0 "agg:17300:house:24" (7 : ℚ)).1
        (_cache_set (fun _ => none) (fun _ => none) 0 "agg:17300:house:24" (7 : ℚ)).2
        86460 "agg:17300:house:24" = none :=
  ⟨((c6_cache_ttl_24h ℚ (fun _ => none) (fun _ => none) 0 86340 "agg:17300:house:24" 7).1
      (by norm_num)).1,
   ((c6_cache_ttl_24h ℚ (fun _ => none) (fun _ => none) 0 86460 "agg:17300:house:24" 7).2
      (by norm_num)).1⟩

/-- C7: the arrondissement expansion is exactly the fixed 3-entry table —
75056 → the 20 codes 75101..75120, 69123 → the 9 codes 69381..69389,
13055 → the 16 codes 13201..13216 — and every other code expands to the
singleton list of itself. -/
theorem c7_expansion_table :
    _expand_insee_to_query "75056" =
      ["75101", "75102", "75103", "75104", "75105", "75106", "75107", "75108",
       "75109", "75110", "75111", "75112", "75113", "75114", "75115", "75116",
       "75117", "75118", "75119", "75120"]
    ∧ _expand_insee_to_query "69123" =
      ["69381", "69382", "69383", "69384", "69385", "69386", "69387", "69388", "69389"]
    ∧ _expand_insee_to_query "13055" =
      ["13201", "13202", "13203", "13204", "13205", "13206", "13207", "13208",
       "13209", "13210", "13211", "13212", "13213", "13214", "13215", "13216"]
    ∧ ∀ code : String, code ∉ (["75056", "69123", "13055"] : List String) →
        _expand_insee_to_query code = [code] := by
  refine ⟨by decide, by decide, by decide, ?_⟩
  intro code h
  simp only [List.mem_cons, List.not_mem_nil, or_false, not_or] at h
  unfold _expand_insee_to_query
  rw [if_neg h.1, if_neg h.2.1, if_neg h.2.2]

/-- Witness for C7 at the non-subdivided code 33063 (Bordeaux). -/
theorem c7_expansion_witness : _expand_insee_to_query "33063" = ["33063"] :=
  c7_expansion_table.2.2.2 "33063" (by decide)

end PriceApi

/-- C4 (amended): both comparators return the explicit error dict
`{'error': 'Surface invalide'}` whenever `subject_area ≤ 0` — in particular
for `compare_price(200000, 0, estimate)` — and
`PriceAPI.compare_property_price` additionally returns the distinct error
`{'error': 'Données de marché invalides'}` when the estimate carries no
usable (positive) price.  (`SimplePriceAPI.compare_property_price` has no
such check and raises `ZeroDivisionError` on a zero market price — see the
counterexample.) -/
theorem c4_comparator_invalid_input :
    (∀ (property_price property_surface : ℚ) (md : PriceApi.MarketData),
      property_surface ≤ 0 →
      PriceApi.compare_property_price property_price property_surface md
        = .err "Surface invalide")
    ∧ (∀ (property_price property_surface : ℚ) (md : PriceApi.MarketData),
      0 < property_surface → md.price_per_sqm.getD 0 ≤ 0 →
      PriceApi.compare_property_price property_price property_surface md
        = .err "Données de marché invalides")
    ∧ (∀ (property_price property_surface : ℚ) (md : PriceApiSimple.MarketData),
      property_surface ≤ 0 →
      PriceApiSimple.compare_property_price property_price property_surface md
        = .err "Surface invalide")
    ∧ PriceApi.compare_property_price 200000 0 ⟨some 3000, none, none⟩
        = .err "Surface invalide"
    ∧ PriceApiSimple.compare_property_price 200000 0 ⟨some 3000⟩
        = .err "Surface invalide" := by
  refine ⟨?_, ?_, ?_, by decide, by decide⟩
  · intro pp ps md h
    unfold PriceApi.compare_property_price
    rw [if_pos h]
  · intro pp ps md h hm
    unfold PriceApi.compare_property_price
    rw [if_neg (not_le.mpr h), if_pos hm]
  · intro pp ps md h
    unfold PriceApiSimple.compare_property_price
    rw [if_pos h]

/-- Witness for C4: negative surface, and an estimate without any price. -/
theorem c4_comparator_witness :
    PriceApi.compare_property_price 150000 (-2) ⟨some 2500, none, none⟩
        = .err "Surface invalide"
    ∧ PriceApi.compare_property_price 150000 30 ⟨none, none, none⟩
        = .err "Données de marché invalides" :=
  ⟨c4_comparator_invalid_input.1 150000 (-2) ⟨some 2500, none, none⟩ (by norm_num),
   c4_comparator_invalid_input.2.1 150000 30 ⟨none, none, none⟩ (by norm_num) (by decide)⟩

/-- C4 counterexample: `SimplePriceAPI.compare_property_price` called with an
estimate whose `price_per_sqm` is 0 reaches the division
`(pps - mps) / mps` and raises `ZeroDivisionError` instead of returning a
distinct error value. -/
theorem c4_simple_no_price_check_counterexample :
    PriceApiSimple.compare_property_price 200000 50 ⟨some 0⟩
      = .raised "ZeroDivisionError" := by decide

/-- C5 (amended): on an unresolvable place, `PriceAPI.get_local_prices`
(api/price_api.py) returns the explicit error dict
"Aucune estimation DVF disponible (INSEE introuvable)" rather than a
fallback price (see the counterexample), while the reference-table
estimators do return the global default house price of 3600 €/m² with a
fallback source label and never raise: `SimplePriceAPI.get_price_estimate`
returns it for any city with no exact and no partial table match, and
`DVFPriceAPI._get_fallback_price` returns it with its national-average
label. -/
theorem c5_unresolved_place_fallback :
    (∀ (cached : String → Option PriceApi.LocalPrices)
        (oracles : List PriceApi.AggOracle) (city : String)
        (postal_code : Option String) (property_type : String),
      PriceApi.get_local_prices none cached oracles city postal_code property_type
        = .err "Aucune estimation DVF disponible (INSEE introuvable)")
    ∧ (∀ city : String,
      PriceApiSimple.reference_prices.find?
          (fun row => row.name = Py.strip (Py.lower city)) = none →
      PriceApiSimple.reference_prices.find?
          (fun row => row.name ≠ "_default"
            && (Py.strIn row.name (Py.strip (Py.lower city))
                || Py.strIn (Py.strip (Py.lower city)) row.name)) = none →
      PriceApiSimple.get_price_estimate city "house"
        = ⟨3600, "Moyenne nationale DVF 2024", 65, "Année 2024"⟩)
    ∧ PriceApiDvf._get_fallback_price "house" none
        = ⟨3600, "Moyenne nationale DVF 2024", 60, "Moyenne nationale", 0⟩ := by
  refine ⟨?_, ?_, by decide⟩
  · intro cached oracles city pc pt
    unfold PriceApi.get_local_prices
    rfl
  · intro city h1 h2
    unfold PriceApiSimple.get_price_estimate PriceApiSimple.getPriceForType
    rw [show PriceApiSimple.normType "house" = "house" from by decide]
    dsimp only
    rw [h1, h2]
    rfl

/-- Witness for C5 at a city absent from the reference table. -/
theorem c5_fallback_witness :
    PriceApiSimple.get_price_estimate "Trifouillis" "house"
      = ⟨3600, "Moyenne nationale DVF 2024", 65, "Année 2024"⟩ :=
  c5_unresolved_place_fallback.2.1 "Trifouillis" (by decide) (by decide)

/-- C5 counterexample: the estimator of api/price_api.py, queried with an
unresolvable place (geocode returned no INSEE code) and category "house",
returns an error dict with no price at all — not the global default house
price-per-area the claim requires of "the price estimator". -/
theorem c5_priceapi_error_counterexample :
    PriceApi.get_local_prices none (fun _ => none) [] "Trifouillis" (some "00000") "house"
      = .err "Aucune estimation DVF disponible (INSEE introuvable)" := by decide

/-- C10: `SimplePriceAPI.get_price_estimate` treats every property type
whose lowercase form is not 'maison', 'house', 'appartement', 'apartment'
or 'studio' exactly like 'apartment'. -/
theorem c10_unknown_type_defaults_to_apartment :
    ∀ (city : String) (property_type : String),
      Py.lower property_type ∉
        (["maison", "house", "appartement", "apartment", "studio"] : List String) →
      PriceApiSimple.get_price_estimate city property_type
        = PriceApiSimple.get_price_estimate city "apartment" := by
  intro city pt h
  simp only [List.mem_cons, List.not_mem_nil, or_false, not_or] at h
  unfold PriceApiSimple.get_price_estimate
  congr 1
  rw [show PriceApiSimple.normType "apartment" = "apartment" from by decide]
  unfold PriceApiSimple.normType
  rw [if_neg, if_neg]
  · simp only [List.mem_cons, List.not_mem_nil, or_false, not_or]
    exact ⟨h.2.2.1, h.2.2.2.1, h.2.2.2.2⟩
  · simp only [List.mem_cons, List.not_mem_nil, or_false, not_or]
    exact ⟨h.1, h.2.1⟩

/-- Witness for C10 at property type "garage". -/
theorem c10_unknown_type_witness :
    PriceApiSimple.get_price_estimate "Nantes" "garage"
      = PriceApiSimple.get_price_estimate "Nantes" "apartment" :=
  c10_unknown_type_defaults_to_apartment "Nantes" "garage" (by decide)

namespace PriceApi

/-- C8 (amended): when the direct administrative-code queries contribute
nothing and the postal-code fallback carries positive sums, the estimator
returns a live-data estimate (source "DVF (agrégat API)", price the ratio
of the postal sums) — but its `transaction_count` is the string "N/A", not
the number of aggregated records, because the analyze aggregate sets
`count` to `None`. -/
theorem c8_postal_fallback_live_estimate :
    ∀ (o : AggOracle) (cached : String → Option LocalPrices)
      (insee city pc property_type : String),
      (∀ c, o.directSums c = (0, 0)) →
      0 < o.postalSums.1 → 0 < o.postalSums.2 →
      cached ("agg:" ++ insee ++ ":" ++ property_type ++ ":" ++ toString 24) = none →
      get_local_prices (some insee) cached [o] city (some pc) property_type =
        .ok ⟨Py.pyround (o.postalSums.1 / o.postalSums.2), none, none, Sum.inl "N/A",
             toString 24 ++ " derniers mois", city, some pc, property_type,
             "DVF (agrégat API)", none⟩ := by
  intro o cached insee city pc pt hdir hp hs hcache
  exact get_local_prices_postal_path o cached insee city pc pt hdir hp hs hcache

/-- Witness for C8 with the 20-record postal oracle. -/
theorem c8_postal_fallback_witness :
    get_local_prices (some "17300") (fun _ => none) [postalOnlyOracle]
        "Surgeres" (some "17700") "house"
      = .ok ⟨Py.pyround ((4000000 : ℚ) / 1000), none, none, Sum.inl "N/A",
             toString 24 ++ " derniers mois", "Surgeres", some "17700", "house",
             "DVF (agrégat API)", none⟩ :=
  c8_postal_fallback_live_estimate postalOnlyOracle (fun _ => none)
    "17300" "Surgeres" "17700" "house" (fun _ => rfl)
    (by norm_num [postalOnlyOracle]) (by norm_num [postalOnlyOracle]) rfl

/-- C8 counterexample: with 0 direct records and a postal-code query
aggregating 20 valid records (sums 4000000 € over 1000 m²), the estimator
returns the live estimate at 4000 €/m² whose `transaction_count` is "N/A" —
not the `sample_count = 20` the claim requires. -/
theorem c8_no_sample_count_counterexample :
    get_local_prices (some "17300") (fun _ => none) [postalOnlyOracle]
        "Rochefort" (some "17300") "apartment"
      = .ok ⟨4000, none, none, Sum.inl "N/A", "24 derniers mois", "Rochefort",
             some "17300", "apartment", "DVF (agrégat API)", none⟩
    ∧ (Sum.inl "N/A" : String ⊕ ℕ) ≠ Sum.inr 20 := by
  refine ⟨?_, by decide⟩
  have h := get_local_prices_postal_path postalOnlyOracle (fun _ => none)
    "17300" "Rochefort" "17300" "apartment" (fun _ => rfl)
    (by norm_num [postalOnlyOracle]) (by norm_num [postalOnlyOracle]) rfl
  rw [h]
  norm_num [postalOnlyOracle, Py.pyround]
  decide

/-- C9: whenever `_compute_stats` returns a non-empty result, the rounded
percentiles are ordered (`p10_m2 ≤ median_m2 ≤ p90_m2`) and the count is at
least 1; it returns the empty marker exactly when no record survives the
plausibility filter. -/
theorem c9_stats_invariants :
    ∀ txs : List Tx,
      (∀ s, _compute_stats txs = some s →
        s.p10_m2 ≤ s.median_m2 ∧ s.median_m2 ≤ s.p90_m2 ∧ 1 ≤ s.count)
      ∧ (_compute_stats txs = none ↔ txs.filter txKeep = []) := by
  intro txs
  unfold _compute_stats
  dsimp only
  by_cases hempty : (txs.filter txKeep).map (fun tx => tx.price / tx.surface) = []
  · rw [if_pos hempty]
    constructor
    · intro s hs; exact Option.noConfusion hs
    · simp only [eq_self_iff_true, true_iff]
      exact List.map_eq_nil_iff.mp hempty
  · rw [if_neg hempty]
    have hsort := List.sorted_insertionSort (· ≤ ·)
      ((txs.filter txKeep).map (fun tx => tx.price / tx.surface))
    have hperm := List.perm_insertionSort (· ≤ ·)
      ((txs.filter txKeep).map (fun tx => tx.price / tx.surface))
    have hne : List.insertionSort (· ≤ ·)
        ((txs.filter txKeep).map (fun tx => tx.price / tx.surface)) ≠ [] := by
      intro hnil
      apply hempty
      have hlen := hperm.length_eq
      rw [hnil] at hlen
      exact List.eq_nil_of_length_eq_zero (by simpa using hlen.symm)
    constructor
    · intro s hs
      injection hs with hs
      subst hs
      dsimp only
      refine ⟨?_, ?_, ?_⟩
      · rw [pymedian_eq_percentile_fifty _ hne]
        exact Py.pyround_mono (percentile_mono _ hsort hne
          (by norm_num : (0:ℚ) ≤ 10) (by norm_num : (10:ℚ) ≤ 50)
          (by norm_num : (50:ℚ) ≤ 100))
      · rw [pymedian_eq_percentile_fifty _ hne]
        exact Py.pyround_mono (percentile_mono _ hsort hne
          (by norm_num : (0:ℚ) ≤ 50) (by norm_num : (50:ℚ) ≤ 90)
          (by norm_num : (90:ℚ) ≤ 100))
      · rw [hperm.length_eq]
        exact List.length_pos.mpr hempty
    · constructor
      · intro h; exact Option.noConfusion h
      · intro hfil
        exact absurd (by simp [hfil]) hempty

/-- Witness for C9 at a singleton surviving record (200000 € for 50 m²),
whose statistics are all 4000 €/m² with count 1. -/
theorem c9_stats_witness :
    (PriceApi.Stats.mk 4000 4000 4000 1 none (some "2024-01-15")).p10_m2
        ≤ (PriceApi.Stats.mk 4000 4000 4000 1 none (some "2024-01-15")).median_m2
      ∧ (PriceApi.Stats.mk 4000 4000 4000 1 none (some "2024-01-15")).median_m2
        ≤ (PriceApi.Stats.mk 4000 4000 4000 1 none (some "2024-01-15")).p90_m2
      ∧ 1 ≤ (PriceApi.Stats.mk 4000 4000 4000 1 none (some "2024-01-15")).count := by
  refine (c9_stats_invariants [⟨200000, 50, none, some "2024-01-15"⟩]).1
    ⟨4000, 4000, 4000, 1, none, some "2024-01-15"⟩ ?_
  norm_num [PriceApi._compute_stats, PriceApi.txKeep, PriceApi.txTypeOk,
    PriceApi.percentile, PriceApi.pymedian, PriceApi.lastTxDate, PriceApi.dateUpd,
    Py.pyround, Py.intTrunc, List.insertionSort, List.orderedInsert, String.reduceEq]
  exact fun h => absurd h (by decide)

end PriceApi
